import Mathlib

/-!
Verification development for the legora-trust-architect backend core:
the constraint validator (`app/services/validator.py`), the document
ingestion citation parser (`app/services/ingestion.py`), and the
draft/validate/retry agent loop (`app/services/agent.py`).

Modelling conventions:
* Python strings are Lean `String`s; positions count code points, which
  matches Python string indices. Helpers (`pyStrip`, `pyLower`, ...)
  reproduce the Python string methods the source uses, restricted to the
  ASCII whitespace/casing behaviour the repository's data exercises.
* The two fixed regular expressions of the liability check and the
  `[SourceID: ...]` / heading patterns of the ingestion service are
  translated into explicit scanners. Heading matches are detected per
  line: the pattern's whitespace run is not allowed to swallow the line
  break (the cross-line match is a degenerate case no document in the
  repository triggers and no claim depends on).
* The LLM gateway (`generate_structured_output`) is an external
  collaborator; it is modelled as a function from the call index (the
  attempt number; successive calls may return different results) and the
  two prompts to `Except String AgentOutput`, mirroring the
  return-or-raise-ValueError behaviour of the source.
* `get_all_chunks` may raise on lazy loading; it is modelled as an
  `Except String (List DocumentChunk)` argument threaded into the loop.
* Wall-clock event timestamps and logging calls are not modelled.
-/

/-- Python `\s` / `str.strip` whitespace for the ASCII range. -/
def isPySpace (c : Char) : Bool :=
  c = ' ' || c = '\t' || c = '\n' || c = '\r' || c = '\x0b' || c = '\x0c'

/-- Python `str.strip()` with no arguments. -/
def pyStrip (s : String) : String :=
  ⟨((s.data.dropWhile isPySpace).reverse.dropWhile isPySpace).reverse⟩

/-- Python `str.lower()` restricted to ASCII letters. -/
def pyLower (s : String) : String :=
  ⟨s.data.map Char.toLower⟩

/-- Split a character list at every separator character (Python
`str.split` with a one-character separator: empty pieces are kept). -/
def splitOnPredAux (p : Char → Bool) : List Char → List Char → List (List Char)
  | [], acc => [acc.reverse]
  | c :: cs, acc =>
    if p c then acc.reverse :: splitOnPredAux p cs []
    else splitOnPredAux p cs (c :: acc)

/-- Python `s.split("\n")`. -/
def pySplitNewline (s : String) : List String :=
  (splitOnPredAux (fun c => c = '\n') s.data []).map (fun l => (⟨l⟩ : String))

/-- Word count of Python `len(s.split())`: split on whitespace runs,
dropping empty pieces. -/
def pyWordCount (s : String) : Nat :=
  (((splitOnPredAux isPySpace s.data []).map (fun l => (⟨l⟩ : String))).filter
    (fun w => w ≠ "")).length

/-- Strip an expected character sequence from the front of a list,
returning the remainder on success. -/
def stripPrefixChars : List Char → List Char → Option (List Char)
  | [], rest => some rest
  | _ :: _, [] => none
  | p :: ps, c :: cs => if p = c then stripPrefixChars ps cs else none

/-- Python `sub in s` (substring containment). -/
def containsSubstr (sub : String) (s : String) : Bool :=
  s.data.tails.any (fun t => (stripPrefixChars sub.data t).isSome)

/-- Match of the validator's fixed regex `unlimited\s+liability` starting
at the head of the list. Because `liability` begins with a
non-whitespace character, the greedy `\s+` is equivalent to consuming
the maximal whitespace run. -/
def unlimitedLiabilityAt (cs : List Char) : Bool :=
  match stripPrefixChars "unlimited".data cs with
  | none => false
  | some rest =>
    match rest with
    | [] => false
    | c :: r =>
      isPySpace c && (stripPrefixChars "liability".data (r.dropWhile isPySpace)).isSome

/-- Python `re.search(r"unlimited\s+liability", s)` as a Boolean. -/
def searchUnlimitedLiability (s : String) : Bool :=
  s.data.tails.any unlimitedLiabilityAt

/-- Python `\w` word character (ASCII range). -/
def isWordChar (c : Char) : Bool :=
  c.isAlphanum || c = '_'

/-- Match of the validator's fixed regex `consequential\s+damages?\b`
starting at the head of the list. After `damage`, the optional `s` and
the word boundary are resolved exactly as the backtracking regex engine
would: `damages` followed by a non-word character (or the end), else
`damage` followed by a non-word character (or the end). -/
def consequentialDamagesAt (cs : List Char) : Bool :=
  match stripPrefixChars "consequential".data cs with
  | none => false
  | some rest =>
    match rest with
    | [] => false
    | c :: r =>
      isPySpace c &&
        (match stripPrefixChars "damage".data (r.dropWhile isPySpace) with
         | none => false
         | some rest2 =>
           match rest2 with
           | [] => true
           | d :: r2 =>
             if d = 's' then
               match r2 with
               | [] => true
               | e :: _ => !(isWordChar e)
             else !(isWordChar d))

/-- Python `re.search(r"consequential\s+damages?\b", s)` as a Boolean. -/
def searchConsequentialDamages (s : String) : Bool :=
  s.data.tails.any consequentialDamagesAt

/-! ## Data model (`app/models/constraints.py`) -/

/-- `Jurisdiction` enum. -/
inductive Jurisdiction where
  | sweden
  | eu
  | uk
  | usCalifornia
  | usDelaware
  | usNewYork
deriving DecidableEq

/-- The `.value` string of a `Jurisdiction` member. -/
def Jurisdiction.value : Jurisdiction → String
  | .sweden => "Sweden"
  | .eu => "European Union"
  | .uk => "United Kingdom"
  | .usCalifornia => "California, USA"
  | .usDelaware => "Delaware, USA"
  | .usNewYork => "New York, USA"

/-- `ContractType` enum. -/
inductive ContractType where
  | nda
  | msa
  | dpa
  | privacyPolicy
  | sla
deriving DecidableEq

/-- The `.value` string of a `ContractType` member. -/
def ContractType.value : ContractType → String
  | .nda => "Non-Disclosure Agreement"
  | .msa => "Master Services Agreement"
  | .dpa => "Data Processing Agreement"
  | .privacyPolicy => "Privacy Policy"
  | .sla => "Service Level Agreement"

/-- `RiskLevel` enum. -/
inductive RiskLevel where
  | low
  | medium
  | high
  | critical
deriving DecidableEq

/-- The `.value` string of a `RiskLevel` member. -/
def RiskLevel.value : RiskLevel → String
  | .low => "low"
  | .medium => "medium"
  | .high => "high"
  | .critical => "critical"

/-- Python `severity.value.upper()` as used by the retry-context builder. -/
def RiskLevel.valueUpper : RiskLevel → String
  | .low => "LOW"
  | .medium => "MEDIUM"
  | .high => "HIGH"
  | .critical => "CRITICAL"

/-- `LiabilityConstraints`. Numeric JSON values are modelled as exact
rationals. The construction-time Pydantic validator (at least one cap
mechanism must be set) is a parse-time concern outside this embedding. -/
structure LiabilityConstraints where
  max_liability_amount : Option Rat := none
  liability_cap_multiple_of_fees : Option Rat := none
  allows_consequential_damages : Bool := false
  allows_unlimited_liability : Bool := false
deriving DecidableEq

/-- `DataProtectionConstraints`. -/
structure DataProtectionConstraints where
  required_jurisdiction : Jurisdiction := .eu
  requires_gdpr_compliance : Bool := true
  max_data_retention_days : Option Nat := none
  requires_breach_notification : Bool := true
  max_breach_notification_hours : Nat := 72
  allows_cross_border_transfer : Bool := true
  requires_sub_processor_approval : Bool := true
deriving DecidableEq

/-- `TerminationConstraints`. -/
structure TerminationConstraints where
  min_notice_period_days : Nat := 30
  allows_termination_for_convenience : Bool := true
  requires_data_return_on_termination : Bool := true
deriving DecidableEq

/-- `ForbiddenClause`: a pattern that must not appear in generated text. -/
structure ForbiddenClause where
  pattern : String
  reason : String
  severity : RiskLevel := .high
deriving DecidableEq

/-- `ContractConstraints` — the full profile. -/
structure ContractConstraints where
  contract_type : ContractType
  governing_jurisdiction : Jurisdiction := .sweden
  liability : LiabilityConstraints :=
    { liability_cap_multiple_of_fees := some 2,
      allows_consequential_damages := false }
  data_protection : DataProtectionConstraints := {}
  termination : TerminationConstraints := {}
  forbidden_clauses : List ForbiddenClause := []
  required_source_ids : List String := []
  max_clause_length : Nat := 500
deriving DecidableEq

/-- `GeneratedCitation`. -/
structure GeneratedCitation where
  source_id : String
  relevance : String
deriving DecidableEq

/-- `GeneratedClause`. -/
structure GeneratedClause where
  title : String
  text : String
  citations : List GeneratedCitation := []
  risk_level : RiskLevel := .low
  reasoning : String := ""
deriving DecidableEq

/-- `AgentOutput` — the schema the gateway must satisfy. The JSON number
`confidence_score` is modelled as an exact rational; no claim performs
arithmetic on it. -/
structure AgentOutput where
  clauses : List GeneratedClause
  summary : String
  governing_jurisdiction : Jurisdiction
  confidence_score : Rat
deriving DecidableEq

/-- `ValidationViolation`. -/
structure ValidationViolation where
  field : String
  message : String
  severity : RiskLevel
  suggestion : String := ""
deriving DecidableEq

/-- `ValidationResult`. -/
structure ValidationResult where
  is_valid : Bool
  violations : List ValidationViolation := []
  attempt_number : Nat := 1
deriving DecidableEq

/-! ## Validation engine (`app/services/validator.py`)

`_check_forbidden_clauses` evaluates `re.search(pattern, full_text)` for
profile-authored patterns; since those patterns are arbitrary regexes
supplied in the profile data, the regex engine is a parameter
`reSearch pattern text` of the validator. The two fixed patterns of the
liability check are translated concretely above. -/

/-- `_get_full_text`: concatenate all clause text with single spaces. -/
def _get_full_text (output : AgentOutput) : String :=
  String.intercalate " " (output.clauses.map (fun clause => clause.text))

/-- `_check_jurisdiction`. -/
def _check_jurisdiction (output : AgentOutput) (constraints : ContractConstraints) :
    List ValidationViolation :=
  if output.governing_jurisdiction ≠ constraints.governing_jurisdiction then
    [{ field := "governing_jurisdiction",
       message := "Expected jurisdiction \x27" ++ constraints.governing_jurisdiction.value ++
         "\x27 but got \x27" ++ output.governing_jurisdiction.value ++ "\x27.",
       severity := RiskLevel.high,
       suggestion := "Change the governing jurisdiction to \x27" ++
         constraints.governing_jurisdiction.value ++ "\x27." }]
  else []

/-- `_check_forbidden_clauses`. -/
def _check_forbidden_clauses (reSearch : String → String → Bool)
    (output : AgentOutput) (constraints : ContractConstraints) :
    List ValidationViolation :=
  let full_text := _get_full_text output
  constraints.forbidden_clauses.filterMap (fun forbidden =>
    if reSearch forbidden.pattern full_text then
      some { field := "forbidden_clause",
             message := "Forbidden pattern detected: \x27" ++ forbidden.pattern ++
               "\x27. Reason: " ++ forbidden.reason,
             severity := forbidden.severity,
             suggestion := "Remove or rephrase any language matching: " ++ forbidden.pattern }
    else none)

/-- `_check_required_citations`. Set membership over the cited ids is
list membership of the collected citation ids. -/
def _check_required_citations (output : AgentOutput) (constraints : ContractConstraints) :
    List ValidationViolation :=
  if constraints.required_source_ids = [] then []
  else
    let cited_ids := (output.clauses.map (fun clause =>
      clause.citations.map (fun citation => citation.source_id))).flatten
    constraints.required_source_ids.filterMap (fun required_id =>
      if cited_ids.contains required_id then none
      else
        some { field := "required_citations",
               message := "Required citation \x27" ++ required_id ++
                 "\x27 is missing from the output.",
               severity := RiskLevel.medium,
               suggestion := "Include a citation to [SourceID: " ++ required_id ++
                 "] in your response." })

/-- `_check_liability`. -/
def _check_liability (output : AgentOutput) (constraints : ContractConstraints) :
    List ValidationViolation :=
  let full_text := pyLower (_get_full_text output)
  let liability := constraints.liability
  (if !liability.allows_unlimited_liability && searchUnlimitedLiability full_text then
    [{ field := "liability.unlimited",
       message := "Output contains \x27unlimited liability\x27 but this is not permitted.",
       severity := RiskLevel.critical,
       suggestion := "Replace unlimited liability with a capped liability clause." }]
  else []) ++
  (if !liability.allows_consequential_damages && searchConsequentialDamages full_text then
    [{ field := "liability.consequential_damages",
       message := "Output mentions \x27consequential damages\x27 but these are excluded by the constraint profile.",
       severity := RiskLevel.high,
       suggestion := "Add exclusion language for consequential and indirect damages." }]
  else [])

/-- `_check_data_protection`. -/
def _check_data_protection (output : AgentOutput) (constraints : ContractConstraints) :
    List ValidationViolation :=
  let full_text := pyLower (_get_full_text output)
  let dp := constraints.data_protection
  (if dp.requires_gdpr_compliance &&
      !containsSubstr "gdpr" full_text && !containsSubstr "general data protection" full_text then
    [{ field := "data_protection.gdpr",
       message := "GDPR compliance is required but no GDPR reference found in output.",
       severity := RiskLevel.high,
       suggestion := "Include explicit reference to GDPR compliance." }]
  else []) ++
  (if dp.requires_breach_notification &&
      !containsSubstr "breach" full_text && !containsSubstr "notification" full_text then
    [{ field := "data_protection.breach_notification",
       message := "Breach notification clause is required but not found.",
       severity := RiskLevel.high,
       suggestion := "Include a breach notification clause with a " ++
         toString dp.max_breach_notification_hours ++ "-hour notification window." }]
  else [])

/-- `_check_clause_length`. -/
def _check_clause_length (output : AgentOutput) (constraints : ContractConstraints) :
    List ValidationViolation :=
  output.clauses.filterMap (fun clause =>
    let word_count := pyWordCount clause.text
    if word_count > constraints.max_clause_length then
      some { field := "clause_length." ++ clause.title,
             message := "Clause \x27" ++ clause.title ++ "\x27 has " ++ toString word_count ++
               " words, exceeding the limit of " ++ toString constraints.max_clause_length ++ ".",
             severity := RiskLevel.low,
             suggestion := "Shorten this clause to under " ++
               toString constraints.max_clause_length ++ " words." }
    else none)

/-- `validate_output`: run the six checks in source order, accumulating
violations exactly as the successive `violations.extend(...)` calls do;
`is_valid` is `len(violations) == 0`. -/
def validate_output (reSearch : String → String → Bool)
    (output : AgentOutput) (constraints : ContractConstraints) : ValidationResult :=
  let violations : List ValidationViolation := []
  let violations := violations ++ _check_jurisdiction output constraints
  let violations := violations ++ _check_forbidden_clauses reSearch output constraints
  let violations := violations ++ _check_required_citations output constraints
  let violations := violations ++ _check_liability output constraints
  let violations := violations ++ _check_data_protection output constraints
  let violations := violations ++ _check_clause_length output constraints
  { is_valid := violations.isEmpty, violations := violations }

/-! ## Document ingestion (`app/services/ingestion.py`)

The `SOURCE_ID_PATTERN` regex `\[SourceID:\s*([^\]]+)\]` and the
`HEADING_PATTERN` regex `^(#{1,6})\s+(.+)$` (multiline) are translated
into explicit scanners over the character list of the document, keeping
the match positions the source consumes (`match.start()`, `match.end()`).
-/

/-- `Citation` (ingestion data structure). -/
structure Citation where
  source_id : String
  text : String
  document_name : String
  section_heading : String
deriving DecidableEq

/-- `DocumentChunk`. The untyped `metadata` dict, which no embedded
operation reads or writes, is omitted. -/
structure DocumentChunk where
  chunk_id : String
  text : String
  document_name : String
  source_ids : List String := []
deriving DecidableEq

/-- Try to match `SOURCE_ID_PATTERN` at the head of the list. Returns
the captured group (after the greedy `\s*`, resolved exactly as the
backtracking engine does when the bracket content is all whitespace)
and the number of characters consumed. -/
def matchAnchorAt (cs : List Char) : Option (String × Nat) :=
  match stripPrefixChars "[SourceID:".data cs with
  | none => none
  | some rest =>
    let seg := rest.takeWhile (fun c => c ≠ ']')
    if seg.length < rest.length ∧ seg ≠ [] then
      let afterWs := seg.dropWhile isPySpace
      let group := if afterWs.isEmpty then seg.drop (seg.length - 1) else afterWs
      some (⟨group⟩, 10 + seg.length + 1)
    else none

/-- Non-overlapping left-to-right scan of `SOURCE_ID_PATTERN.finditer`:
each entry is `(start, end, group)`. The fuel argument is the length of
the remaining text; every step consumes at least one character. -/
def scanAnchorsAux : Nat → List Char → Nat → List (Nat × Nat × String)
  | 0, _, _ => []
  | _ + 1, [], _ => []
  | fuel + 1, c :: rest, pos =>
    match matchAnchorAt (c :: rest) with
    | some (g, consumed) =>
      (pos, pos + consumed, g) :: scanAnchorsAux fuel (List.drop consumed (c :: rest)) (pos + consumed)
    | none => scanAnchorsAux fuel rest (pos + 1)

/-- All `SOURCE_ID_PATTERN` matches of a document, with positions. -/
def scanAnchors (cs : List Char) : List (Nat × Nat × String) :=
  scanAnchorsAux cs.length cs 0

/-- `SOURCE_ID_PATTERN.sub("", text)`: remove every anchor match. -/
def removeAnchorsAux : Nat → List Char → List Char
  | 0, cs => cs
  | _ + 1, [] => []
  | fuel + 1, c :: rest =>
    match matchAnchorAt (c :: rest) with
    | some (_, consumed) => removeAnchorsAux fuel (List.drop consumed (c :: rest))
    | none => c :: removeAnchorsAux fuel rest

/-- `SOURCE_ID_PATTERN.sub("", text)` on a string. -/
def removeAnchors (s : String) : String :=
  ⟨removeAnchorsAux s.data.length s.data⟩

/-- Split a document into `(lineStartPosition, lineCharacters)` pairs,
the positions multiline `^` anchors at. -/
def splitLinesPosAux : Nat → List Char → Nat → List (Nat × List Char)
  | 0, cs, pos => [(pos, cs)]
  | fuel + 1, cs, pos =>
    let line := cs.takeWhile (fun c => c ≠ '\n')
    match cs.drop line.length with
    | [] => [(pos, line)]
    | _ :: rest => (pos, line) :: splitLinesPosAux fuel rest (pos + line.length + 1)

/-- Lines of a document with their start positions. -/
def splitLinesPos (cs : List Char) : List (Nat × List Char) :=
  splitLinesPosAux cs.length cs 0

/-- Match `HEADING_PATTERN` against one line: a run of one to six `#`
followed by a whitespace character and at least one further character.
Returns the heading level and the raw tail after the `#` run (callers
strip it, matching `group(2).strip()`). -/
def headingLine (line : List Char) : Option (Nat × List Char) :=
  let hashes := line.takeWhile (fun c => c = '#')
  let k := hashes.length
  let rest := line.drop k
  if (decide (1 ≤ k) && decide (k ≤ 6) &&
      (match rest with
       | c :: _ :: _ => isPySpace c
       | _ => false)) = true then
    some (k, rest)
  else none

/-- All `HEADING_PATTERN.finditer` matches: `(start, level, rawTail)`. -/
def headingMatches (content : String) : List (Nat × Nat × List Char) :=
  (splitLinesPos content.data).filterMap (fun pl =>
    match headingLine pl.2 with
    | some (k, rest) => some (pl.1, k, rest)
    | none => none)

/-- `_extract_sections`: stripped text of every level-2 heading. -/
def _extract_sections (content : String) : List String :=
  (headingMatches content).filterMap (fun h =>
    if h.2.1 = 2 then some (pyStrip ⟨h.2.2⟩) else none)

/-- The loop body of `_get_current_heading`: walk the heading matches in
order, remembering the most recent heading that starts before the
position, and stop (`break`) at the first heading that does not. -/
def currentHeadingLoop (position : Nat) : List (Nat × Nat × List Char) → String → String
  | [], current => current
  | h :: hs, current =>
    if h.1 < position then currentHeadingLoop position hs (pyStrip ⟨h.2.2⟩)
    else current

/-- `_get_current_heading`: most recent heading before `position`,
defaulting to `"Introduction"`. -/
def _get_current_heading (content : String) (position : Nat) : String :=
  currentHeadingLoop position (headingMatches content) "Introduction"

/-- Python slice `content[start:stop]`. -/
def sliceChars (cs : List Char) (start stop : Nat) : String :=
  ⟨(cs.drop start).take (stop - start)⟩

/-- The line-cleaning loop of `_parse_citations`: keep lines until one
whose stripped form starts with `#` or equals `---`. -/
def cleanCitationLines : List String → List String
  | [] => []
  | line :: rest =>
    let stripped := pyStrip line
    if (stripPrefixChars "#".data stripped.data).isSome || stripped = "---" then []
    else line :: cleanCitationLines rest

/-- Dict assignment `citations[source_id] = citation`: replace in place
if the key exists, else append (CPython dict insertion-order update). -/
def dictUpsert (l : List (String × Citation)) (k : String) (v : Citation) :
    List (String × Citation) :=
  if l.any (fun p => p.1 = k) then
    l.map (fun p => if p.1 = k then (k, v) else p)
  else l ++ [(k, v)]

/-- The per-match loop of `_parse_citations`, threading the citation
dict through the matches in order. -/
def parseCitationsLoop (content : String) (document_name : String) :
    List (Nat × Nat × String) → List (String × Citation) → List (String × Citation)
  | [], citations => citations
  | (mstart, mend, group) :: rest, citations =>
    let endPos := match rest with
      | (nstart, _, _) :: _ => nstart
      | [] => content.data.length
    let source_id := pyStrip group
    let raw_text := pyStrip (sliceChars content.data mend endPos)
    let text := String.intercalate "\n" (cleanCitationLines (pySplitNewline raw_text))
    let text := pyStrip text
    let text := pyStrip (removeAnchors text)
    let citations :=
      if text ≠ "" then
        dictUpsert citations source_id
          { source_id := source_id,
            text := text,
            document_name := document_name,
            section_heading := _get_current_heading content mstart }
      else citations
    parseCitationsLoop content document_name rest citations

/-- `_parse_citations`: the citation dict of one document, as an
insertion-ordered association list. -/
def _parse_citations (content : String) (document_name : String) :
    List (String × Citation) :=
  parseCitationsLoop content document_name (scanAnchors content.data) []

/-! ## Agent loop (`app/services/agent.py`) -/

/-- `AgentState` enum. -/
inductive AgentState where
  | initializing
  | retrieving
  | drafting
  | validating
  | violation_found
  | correcting
  | finalizing
  | complete
  | error
deriving DecidableEq

/-- The typed payload dicts the agent attaches to events. -/
inductive EventData where
  | contextLength (context_length : Nat)
  | attemptInfo (attempt : Nat)
  | draftInfo (clauses_count : Nat) (confidence : Rat)
  | violationList (violations : List (String × String × String))
  | finalSuccess (output : AgentOutput) (validation : ValidationResult) (total_attempts : Nat)
  | finalFailure (validation : ValidationResult) (total_attempts : Nat)
deriving DecidableEq

/-- `AgentEvent`. The wall-clock `timestamp` field is not modelled. -/
structure AgentEvent where
  state : AgentState
  message : String
  data : Option EventData := none
deriving DecidableEq

/-- `AgentResult`. -/
structure AgentResult where
  output : Option AgentOutput
  validation : ValidationResult
  events : List AgentEvent
  total_attempts : Nat
  success : Bool
  error_message : Option String := none
deriving DecidableEq

/-- The Generation Gateway (`generate_structured_output`): an external,
possibly call-dependent collaborator. The first argument is the call
index (the attempt number on which the loop invokes it), then the
system prompt and the user-facing prompt; a `ValueError` for a
malformed or schema-invalid response is the `Except.error` case
carrying the exception text. -/
def Gen : Type :=
  Nat → String → String → Except String AgentOutput

/-- Python `f"{x:.0%}"` on the confidence score. The decimal rendering
approximates float formatting (round-half-even and binary rounding are
not modelled; no claim depends on this message text). -/
def pyFormatPercent (q : Rat) : String :=
  toString (round (q * 100) : ℤ) ++ "%"

/-- JSON string literal (escaping omitted: the serialized profile is
only interpolated into the prompt handed to the gateway and never
parsed back). -/
def jsonString (s : String) : String :=
  "\"" ++ s ++ "\""

/-- JSON rendering of a Python bool. -/
def jsonBool (b : Bool) : String :=
  if b then "true" else "false"

/-- JSON rendering of a float field. Exact for whole-number values — the
only numeric values the repository's profiles use. -/
def jsonRat (q : Rat) : String :=
  if q.den = 1 then toString q.num ++ ".0" else toString q.num ++ "/" ++ toString q.den

/-- JSON rendering of an optional value. -/
def jsonOpt {α : Type} (f : α → String) : Option α → String
  | none => "null"
  | some a => f a

/-- `json.dumps(..., indent=2)` rendering of a string list nested one
level deep. -/
def jsonStrList (l : List String) : String :=
  if l.isEmpty then "[]"
  else "[\n" ++ String.intercalate ",\n" (l.map (fun s => "    " ++ jsonString s)) ++ "\n  ]"

/-- Serialization of one `ForbiddenClause` inside the profile dump. -/
def forbiddenClauseJson (f : ForbiddenClause) : String :=
  "    \x7b\n      \"pattern\": " ++ jsonString f.pattern ++
  ",\n      \"reason\": " ++ jsonString f.reason ++
  ",\n      \"severity\": " ++ jsonString f.severity.value ++ "\n    \x7d"

/-- Serialization of the forbidden-clause list. -/
def forbiddenListJson (l : List ForbiddenClause) : String :=
  if l.isEmpty then "[]"
  else "[\n" ++ String.intercalate ",\n" (l.map forbiddenClauseJson) ++ "\n  ]"

/-- Serialization of `LiabilityConstraints`. -/
def liabilityJson (l : LiabilityConstraints) : String :=
  "\x7b\n    \"max_liability_amount\": " ++ jsonOpt jsonRat l.max_liability_amount ++
  ",\n    \"liability_cap_multiple_of_fees\": " ++ jsonOpt jsonRat l.liability_cap_multiple_of_fees ++
  ",\n    \"allows_consequential_damages\": " ++ jsonBool l.allows_consequential_damages ++
  ",\n    \"allows_unlimited_liability\": " ++ jsonBool l.allows_unlimited_liability ++ "\n  \x7d"

/-- Serialization of `DataProtectionConstraints`. -/
def dataProtectionJson (d : DataProtectionConstraints) : String :=
  "\x7b\n    \"required_jurisdiction\": " ++ jsonString d.required_jurisdiction.value ++
  ",\n    \"requires_gdpr_compliance\": " ++ jsonBool d.requires_gdpr_compliance ++
  ",\n    \"max_data_retention_days\": " ++ jsonOpt toString d.max_data_retention_days ++
  ",\n    \"requires_breach_notification\": " ++ jsonBool d.requires_breach_notification ++
  ",\n    \"max_breach_notification_hours\": " ++ toString d.max_breach_notification_hours ++
  ",\n    \"allows_cross_border_transfer\": " ++ jsonBool d.allows_cross_border_transfer ++
  ",\n    \"requires_sub_processor_approval\": " ++ jsonBool d.requires_sub_processor_approval ++ "\n  \x7d"

/-- Serialization of `TerminationConstraints`. -/
def terminationJson (t : TerminationConstraints) : String :=
  "\x7b\n    \"min_notice_period_days\": " ++ toString t.min_notice_period_days ++
  ",\n    \"allows_termination_for_convenience\": " ++ jsonBool t.allows_termination_for_convenience ++
  ",\n    \"requires_data_return_on_termination\": " ++ jsonBool t.requires_data_return_on_termination ++ "\n  \x7d"

/-- `constraints.model_dump_json(indent=2)`: the Pydantic dump of the
profile in field-declaration order. -/
def ContractConstraints.model_dump_json (c : ContractConstraints) : String :=
  "\x7b\n  \"contract_type\": " ++ jsonString c.contract_type.value ++
  ",\n  \"governing_jurisdiction\": " ++ jsonString c.governing_jurisdiction.value ++
  ",\n  \"liability\": " ++ liabilityJson c.liability ++
  ",\n  \"data_protection\": " ++ dataProtectionJson c.data_protection ++
  ",\n  \"termination\": " ++ terminationJson c.termination ++
  ",\n  \"forbidden_clauses\": " ++ forbiddenListJson c.forbidden_clauses ++
  ",\n  \"required_source_ids\": " ++ jsonStrList c.required_source_ids ++
  ",\n  \"max_clause_length\": " ++ toString c.max_clause_length ++ "\n\x7d"

/-- `SYSTEM_PROMPT_TEMPLATE.format(...)`: the fully substituted system
prompt (literal braces of the embedded JSON schema written out). -/
def systemPromptFormat (jurisdiction : String) (max_clause_length : Nat)
    (constraints_json : String) (source_context : String) : String :=
  "You are a Legal AI Assistant for Legora Trust-Architect.\n" ++
  "Your task is to generate legally precise contract clauses based on the provided context and constraints.\n" ++
  "\nCRITICAL RULES:\n" ++
  "1. You MUST output valid JSON conforming to the schema below.\n" ++
  "2. You MUST cite sources using the provided SourceIDs.\n" ++
  "3. You MUST respect the governing jurisdiction: " ++ jurisdiction ++ ".\n" ++
  "4. You MUST NOT include any forbidden clause patterns.\n" ++
  "5. Each clause must be under " ++ toString max_clause_length ++ " words.\n" ++
  "6. Set confidence_score based on how well your output matches the constraints.\n" ++
  "\nOUTPUT JSON SCHEMA:\n" ++
  "\x7b\n    \"clauses\": [\n        \x7b\n" ++
  "            \"title\": \"string - clause heading\",\n" ++
  "            \"text\": \"string - the clause text\",\n" ++
  "            \"citations\": [\x7b\"source_id\": \"string\", \"relevance\": \"string\"\x7d],\n" ++
  "            \"risk_level\": \"low|medium|high|critical\",\n" ++
  "            \"reasoning\": \"string - why you drafted it this way\"\n" ++
  "        \x7d\n    ],\n" ++
  "    \"summary\": \"string - brief summary\",\n" ++
  "    \"governing_jurisdiction\": \"" ++ jurisdiction ++ "\",\n" ++
  "    \"confidence_score\": 0.0-1.0\n\x7d\n" ++
  "\nCONSTRAINT PROFILE:\n" ++ constraints_json ++ "\n" ++
  "\nAVAILABLE SOURCE CONTEXT:\n" ++ source_context ++ "\n"

/-- `_build_system_prompt`. -/
def _build_system_prompt (constraints : ContractConstraints) (source_context : String) : String :=
  systemPromptFormat constraints.governing_jurisdiction.value constraints.max_clause_length
    constraints.model_dump_json source_context

/-- `_build_retry_context`: render every violation message and every
non-empty suggestion into `RETRY_INJECTION_TEMPLATE`. -/
def _build_retry_context (violations : List ValidationViolation) : String :=
  let summary_lines := violations.map (fun v =>
    "- [" ++ v.severity.valueUpper ++ "] " ++ v.field ++ ": " ++ v.message)
  let fix_lines := (violations.filter (fun v => v.suggestion ≠ "")).map (fun v =>
    "- " ++ v.suggestion)
  "\nYOUR PREVIOUS ATTEMPT WAS REJECTED. You must fix the following violations:\n\n" ++
  String.intercalate "\n" summary_lines ++
  "\n\nSPECIFIC FIXES REQUIRED:\n" ++
  (if fix_lines.isEmpty then "Review and correct the violations."
   else String.intercalate "\n" fix_lines) ++
  "\n\nGenerate a CORRECTED version that addresses ALL violations above.\nMaintain the same JSON schema.\n"

/-- The contract-type → document-prefix table of
`_get_relevant_context`, including the `.get(..., "")` default. -/
def typeToDocName (v : String) : String :=
  if v = "Data Processing Agreement" then "legora_dpa"
  else if v = "Privacy Policy" then "legora_privacy"
  else if v = "Master Services Agreement" then "zegal_msa"
  else if v = "Non-Disclosure Agreement" then "legora_dpa"
  else if v = "Service Level Agreement" then "zegal_msa"
  else ""

/-- `_get_relevant_context` on an already loaded chunk list: select the
chunks of the mapped document, fall back to the first 20 chunks when
none match, render at most 15 with their source-id header lines, and
join with the delimiter line. -/
def _get_relevant_context (constraints : ContractConstraints)
    (chunks : List DocumentChunk) : String :=
  let target := typeToDocName constraints.contract_type.value
  let relevant := chunks.filter (fun c => c.document_name = target)
  let relevant := if relevant.isEmpty then chunks.take 20 else relevant
  let context_parts := (relevant.take 15).map (fun chunk =>
    let source_ids_str :=
      if chunk.source_ids.isEmpty then "N/A"
      else String.intercalate ", " chunk.source_ids
    "[Sources: " ++ source_ids_str ++ "]\n" ++ chunk.text ++ "\n")
  String.intercalate "\n---\n" context_parts

/-- One iteration step plus the loop-exhaustion return of the
draft/validate loop of `run_agent_sync` (`for attempt in
range(1, max_retries + 1)` and the return that follows it).
`remaining` is the number of loop iterations still to run (the top-level
call passes `maxRetries`, so `attempt + remaining = maxRetries + 1`
throughout); `currentPrompt`, `events`, `lastOutput`, `lastValidation`
are the loop-carried Python locals. -/
def runAttempts (gen : Gen) (reSearch : String → String → Bool)
    (constraints : ContractConstraints) (maxRetries : Nat)
    (userPrompt systemPrompt : String) :
    Nat → Nat → String → List AgentEvent → Option AgentOutput → Option ValidationResult →
    AgentResult
  | 0, _attempt, _currentPrompt, events, lastOutput, lastValidation =>
    { output := lastOutput,
      validation := lastValidation.getD { is_valid := false, violations := [] },
      events := events,
      total_attempts := maxRetries,
      success := false,
      error_message :=
        some ("Validation failed after " ++ toString maxRetries ++ " attempts.") }
  | remaining + 1, attempt, currentPrompt, events, lastOutput, lastValidation =>
    let events := events ++
      [{ state := AgentState.drafting,
         message := "Generating draft (attempt " ++ toString attempt ++ "/" ++
           toString maxRetries ++ ")...",
         data := some (EventData.attemptInfo attempt) }]
    match gen attempt systemPrompt currentPrompt with
    | Except.error e =>
      let events := events ++
        [{ state := AgentState.error, message := "LLM output error: " ++ e }]
      if attempt < maxRetries then
        runAttempts gen reSearch constraints maxRetries userPrompt systemPrompt
          remaining (attempt + 1)
          (userPrompt ++ "\n\nPREVIOUS ATTEMPT FAILED: " ++ e ++ "\nPlease fix and try again.")
          events lastOutput lastValidation
      else
        { output := none,
          validation := { is_valid := false, violations := [] },
          events := events,
          total_attempts := attempt,
          success := false,
          error_message := some e }
    | Except.ok output =>
      let lastOutput := some output
      let events := events ++
        [{ state := AgentState.drafting,
           message := "Draft generated: " ++ toString output.clauses.length ++
             " clause(s), confidence " ++ pyFormatPercent output.confidence_score,
           data := some (EventData.draftInfo output.clauses.length output.confidence_score) }]
      let events := events ++
        [{ state := AgentState.validating, message := "Running constraint validation..." }]
      let validation :=
        { validate_output reSearch output constraints with attempt_number := attempt }
      let lastValidation := some validation
      if validation.is_valid then
        let events := events ++
          [{ state := AgentState.finalizing,
             message := "✅ All constraints satisfied!",
             data := some (EventData.attemptInfo attempt) },
           { state := AgentState.complete,
             message := "Agent loop complete — output verified." }]
        { output := some output,
          validation := validation,
          events := events,
          total_attempts := attempt,
          success := true,
          error_message := none }
      else
        let events := events ++
          [{ state := AgentState.violation_found,
             message := "❌ " ++ toString validation.violations.length ++
               " violation(s) found",
             data := some (EventData.violationList (validation.violations.map (fun v =>
               (v.field, v.message, v.severity.value)))) }]
        if attempt < maxRetries then
          let events := events ++
            [{ state := AgentState.correcting,
               message := "Injecting corrections for retry " ++ toString (attempt + 1) ++ "..." }]
          runAttempts gen reSearch constraints maxRetries userPrompt systemPrompt
            remaining (attempt + 1)
            (userPrompt ++ _build_retry_context validation.violations)
            events lastOutput lastValidation
        else
          let events := events ++
            [{ state := AgentState.error,
               message := "Max retries (" ++ toString maxRetries ++
                 ") exhausted. Returning best effort." }]
          runAttempts gen reSearch constraints maxRetries userPrompt systemPrompt
            remaining (attempt + 1) currentPrompt events lastOutput lastValidation

/-- `run_agent_sync`. `chunksE` is the outcome of `get_all_chunks()`
(whose lazy document load is the only failure the surrounding `try`
can catch); `maxRetries` is `settings.MAX_VALIDATION_RETRIES`. -/
def run_agent_sync (gen : Gen) (reSearch : String → String → Bool)
    (chunksE : Except String (List DocumentChunk)) (maxRetries : Nat)
    (userPrompt : String) (constraints : ContractConstraints) : AgentResult :=
  let events : List AgentEvent :=
    [{ state := AgentState.initializing, message := "Starting legal analysis agent..." },
     { state := AgentState.retrieving, message := "Retrieving relevant source documents..." }]
  match chunksE with
  | Except.error e =>
    { output := none,
      validation := { is_valid := false, violations := [] },
      events := events ++
        [{ state := AgentState.error, message := "Failed to retrieve context: " ++ e }],
      total_attempts := 0,
      success := false,
      error_message := some e }
  | Except.ok chunks =>
    let source_context := _get_relevant_context constraints chunks
    let events := events ++
      [{ state := AgentState.retrieving,
         message := "Retrieved context for " ++ constraints.contract_type.value,
         data := some (EventData.contextLength source_context.length) }]
    let system_prompt := _build_system_prompt constraints source_context
    runAttempts gen reSearch constraints maxRetries userPrompt system_prompt
      maxRetries 1 userPrompt events none none

/-- `run_agent_streaming`: run the synchronous loop to completion, then
republish its events (sanitizing `ERROR` messages) and append the final
synthetic event. The async generator is modelled as the finite ordered
list of events it yields. -/
def run_agent_streaming (gen : Gen) (reSearch : String → String → Bool)
    (chunksE : Except String (List DocumentChunk)) (maxRetries : Nat)
    (userPrompt : String) (constraints : ContractConstraints) : List AgentEvent :=
  let result := run_agent_sync gen reSearch chunksE maxRetries userPrompt constraints
  let replayed := result.events.map (fun event =>
    if event.state = AgentState.error then
      { state := event.state,
        message := "An error occurred during processing",
        data := none }
    else event)
  let final : AgentEvent :=
    match result.success, result.output with
    | true, some output =>
      { state := AgentState.complete,
        message := "Generation complete",
        data := some (EventData.finalSuccess output result.validation result.total_attempts) }
    | _, _ =>
      { state := AgentState.error,
        message := "Generation could not be completed",
        data := some (EventData.finalFailure result.validation result.total_attempts) }
  replayed ++ [final]

/-! Spec-side definitions for the streaming-projection claim, written
from the specification's words (§4.5): a deterministic replay of the
recorded trace with one redaction transform, followed by one final
synthetic event. -/

/-- Modelled from the spec: the redaction transform — an `ERROR`-state
event has its message replaced by the generic phrase and its payload
dropped; every other event is republished unchanged. -/
def redactedReplay (trace : List AgentEvent) : List AgentEvent :=
  trace.map (fun event =>
    if event.state = AgentState.error then
      { state := AgentState.error,
        message := "An error occurred during processing",
        data := none }
    else event)

/-- Modelled from the spec: the final synthetic event — on success it
carries the serialized output and validation result (the source also
includes the attempt count), on failure the validation result and the
attempt count. -/
def finalSyntheticEvent (result : AgentResult) : AgentEvent :=
  match result.success, result.output with
  | true, some output =>
    { state := AgentState.complete,
      message := "Generation complete",
      data := some (EventData.finalSuccess output result.validation result.total_attempts) }
  | _, _ =>
    { state := AgentState.error,
      message := "Generation could not be completed",
      data := some (EventData.finalFailure result.validation result.total_attempts) }

/-! ## Concrete fixtures -/

/-- A profile whose only active check is the jurisdiction comparison:
liability is fully permissive and the data-protection requirements are
switched off. -/
def flatProfile : ContractConstraints :=
  { contract_type := ContractType.msa,
    governing_jurisdiction := Jurisdiction.sweden,
    liability := { allows_unlimited_liability := true, allows_consequential_damages := true },
    data_protection := { requires_gdpr_compliance := false, requires_breach_notification := false },
    forbidden_clauses := [],
    required_source_ids := [],
    max_clause_length := 500 }

/-- A schema-valid output whose jurisdiction never matches
`flatProfile`, so validation fails on every attempt. -/
def mismatchedOutput : AgentOutput :=
  { clauses := [{ title := "Governing Law", text := "This agreement is governed elsewhere." }],
    summary := "Draft",
    governing_jurisdiction := Jurisdiction.uk,
    confidence_score := 9/10 }

/-- A schema-valid output that satisfies every check of `flatProfile`. -/
def conformingOutput : AgentOutput :=
  { clauses := [{ title := "Term", text := "Short." }],
    summary := "Draft",
    governing_jurisdiction := Jurisdiction.sweden,
    confidence_score := 1 }

/-! ## Theorems -/

/-- The engine-level `is_valid` invariant as a reusable equation. -/
theorem validate_output_is_valid_eq (reSearch : String → String → Bool)
    (output : AgentOutput) (constraints : ContractConstraints) :
    (validate_output reSearch output constraints).is_valid =
      (validate_output reSearch output constraints).violations.isEmpty := rfl

/-- Reusable form of the engine-level invariant: `is_valid` is true
exactly when the violation list is empty. -/
theorem validate_output_is_valid_iff_aux (reSearch : String → String → Bool)
    (output : AgentOutput) (constraints : ContractConstraints) :
    (validate_output reSearch output constraints).is_valid = true ↔
      (validate_output reSearch output constraints).violations = [] := by
  rw [validate_output_is_valid_eq]
  exact List.isEmpty_iff

/-- C1 (counterexample): the claim quantifies over every
`ValidationResult` carried inside an `AgentResult`, but the
context-retrieval failure path of `run_agent_sync` returns the
placeholder `ValidationResult(is_valid=False, violations=[])`:
`is_valid` is false while the violation list is empty, so the claimed
equivalence fails for that carried result. -/
theorem error_path_validation_breaks_is_valid_iff :
    (run_agent_sync (fun _ _ _ => Except.error "gateway unavailable") (fun _ _ => false)
        (Except.error "Source documents directory not found") 3
        "Draft a confidentiality clause" flatProfile).validation.is_valid = false ∧
    (run_agent_sync (fun _ _ _ => Except.error "gateway unavailable") (fun _ _ => false)
        (Except.error "Source documents directory not found") 3
        "Draft a confidentiality clause" flatProfile).validation.violations = [] :=
  ⟨rfl, rfl⟩

/-- C1 (amended): for every `ValidationResult` returned by the
Validation Engine (`validate_output`), `is_valid` is true if and only
if the violations list is empty. (The placeholder results the agent
fabricates on its error paths are not engine results and do not satisfy
the equivalence, as the counterexample shows.) -/
theorem validate_output_is_valid_iff_no_violations
    (reSearch : String → String → Bool)
    (output : AgentOutput) (constraints : ContractConstraints) :
    (validate_output reSearch output constraints).is_valid = true ↔
      (validate_output reSearch output constraints).violations = [] :=
  validate_output_is_valid_iff_aux reSearch output constraints

/-- C7: `validate_output` runs the six checks in the fixed source order
— jurisdiction, forbidden patterns, required citations, liability, data
protection, clause length — and the returned violation list is the
concatenation of the six checks' violation lists in that order, so
every check's violations are reported, not only the first. -/
theorem validate_output_runs_checks_in_fixed_order
    (reSearch : String → String → Bool)
    (output : AgentOutput) (constraints : ContractConstraints) :
    (validate_output reSearch output constraints).violations =
      _check_jurisdiction output constraints ++
      _check_forbidden_clauses reSearch output constraints ++
      _check_required_citations output constraints ++
      _check_liability output constraints ++
      _check_data_protection output constraints ++
      _check_clause_length output constraints := rfl

/-- C5: when context retrieval fails (`get_all_chunks` raises),
`run_agent_sync` emits `INITIALIZING`, `RETRIEVING` and one `ERROR`
event and immediately returns a failed result with zero attempts, no
output and the retrieval error as its message — for every gateway, so
the gateway is never consulted and the retrieval is not retried. -/
theorem context_retrieval_failure_returns_zero_attempts
    (gen : Gen) (reSearch : String → String → Bool) (e : String) (maxRetries : Nat)
    (userPrompt : String) (constraints : ContractConstraints) :
    run_agent_sync gen reSearch (Except.error e) maxRetries userPrompt constraints =
      { output := none,
        validation := { is_valid := false, violations := [] },
        events :=
          [{ state := AgentState.initializing, message := "Starting legal analysis agent..." },
           { state := AgentState.retrieving, message := "Retrieving relevant source documents..." },
           { state := AgentState.error, message := "Failed to retrieve context: " ++ e }],
        total_attempts := 0,
        success := false,
        error_message := some e } := rfl

/-- C3: the event sequence yielded by `run_agent_streaming` is exactly
the trace recorded by `run_agent_sync`, in original emission order,
with every `ERROR`-state event's message replaced by the generic phrase
(and its payload dropped), followed by one final synthetic event
carrying the output and validation result on success, or the validation
result and attempt count on failure; the projection applies no other
control logic. -/
theorem run_agent_streaming_is_redacted_replay
    (gen : Gen) (reSearch : String → String → Bool)
    (chunksE : Except String (List DocumentChunk)) (maxRetries : Nat)
    (userPrompt : String) (constraints : ContractConstraints) :
    run_agent_streaming gen reSearch chunksE maxRetries userPrompt constraints =
      redactedReplay (run_agent_sync gen reSearch chunksE maxRetries userPrompt constraints).events ++
        [finalSyntheticEvent (run_agent_sync gen reSearch chunksE maxRetries userPrompt constraints)] := by
  have hfun :
      (fun event : AgentEvent =>
        if event.state = AgentState.error then
          ({ state := event.state,
             message := "An error occurred during processing",
             data := none } : AgentEvent)
        else event) =
      (fun event : AgentEvent =>
        if event.state = AgentState.error then
          ({ state := AgentState.error,
             message := "An error occurred during processing",
             data := none } : AgentEvent)
        else event) := by
    funext event
    by_cases h : event.state = AgentState.error <;> simp [h]
  simp only [run_agent_streaming, redactedReplay, finalSyntheticEvent, hfun]

/-- C8: ingesting a document with the given two-anchor content yields
exactly the citations `A.1 ↦ "Text one."` and `A.2 ↦ "Text two."`, in
that order, both with section heading `"Introduction"` — for any
document name. -/
theorem parse_citations_concrete_scenario (name : String) :
    _parse_citations "[SourceID: A.1]\nText one.\n[SourceID: A.2]\nText two.\n## Heading\n" name =
      [("A.1", { source_id := "A.1", text := "Text one.",
                 document_name := name, section_heading := "Introduction" }),
       ("A.2", { source_id := "A.2", text := "Text two.",
                 document_name := name, section_heading := "Introduction" })] := rfl

/-- The output of the C10 scenario: neither clause contains the phrase
`unlimited liability`, but the first ends with `unlimited` and the
second begins with `liability`. -/
def straddlingOutput : AgentOutput :=
  { clauses :=
      [{ title := "Cap", text := "Liability is unlimited" },
       { title := "Scope", text := "liability for damages is capped." }],
    summary := "Draft",
    governing_jurisdiction := Jurisdiction.eu,
    confidence_score := 1 }

/-- The profile of the C10 scenario: unlimited liability disallowed and
every other check inactive, so the liability check's verdict is
isolated. -/
def capOnlyProfile : ContractConstraints :=
  { contract_type := ContractType.dpa,
    governing_jurisdiction := Jurisdiction.eu,
    liability :=
      { max_liability_amount := some 1000000,
        allows_consequential_damages := true,
        allows_unlimited_liability := false },
    data_protection := { requires_gdpr_compliance := false, requires_breach_notification := false },
    forbidden_clauses := [],
    required_source_ids := [],
    max_clause_length := 500 }

/-- C10: the validator joins clause texts with a single space before
its full-text phrase checks, so an output no single clause of which
contains `"unlimited liability"` is still reported with the CRITICAL
liability violation when one clause ends with `unlimited` and the next
begins with `liability`. -/
theorem full_text_join_detects_cross_clause_phrase :
    _get_full_text straddlingOutput = "Liability is unlimited liability for damages is capped." ∧
    (straddlingOutput.clauses.all (fun clause =>
      !(containsSubstr "unlimited liability" (pyLower clause.text)))) = true ∧
    (validate_output (fun _ _ => false) straddlingOutput capOnlyProfile).violations =
      [{ field := "liability.unlimited",
         message := "Output contains \x27unlimited liability\x27 but this is not permitted.",
         severity := RiskLevel.critical,
         suggestion := "Replace unlimited liability with a capped liability clause." }] :=
  ⟨rfl, by decide, by decide⟩

/-- C4: if the gateway reports a malformed or schema-invalid response
on the current attempt, the loop appends the `DRAFTING` event and an
`ERROR` event carrying the gateway message; when attempts remain it
continues the loop with the short failure note appended to the original
user prompt, and on the final attempt it returns a failed result with
no output whose `error_message` is exactly the gateway error message. -/
theorem gateway_error_retry_or_final_failure
    (gen : Gen) (reSearch : String → String → Bool)
    (constraints : ContractConstraints) (maxRetries : Nat)
    (userPrompt systemPrompt : String)
    (remaining attempt : Nat) (currentPrompt : String)
    (events : List AgentEvent) (lastOutput : Option AgentOutput)
    (lastValidation : Option ValidationResult) (e : String)
    (hgen : gen attempt systemPrompt currentPrompt = Except.error e) :
    (attempt < maxRetries →
      runAttempts gen reSearch constraints maxRetries userPrompt systemPrompt
          (remaining + 1) attempt currentPrompt events lastOutput lastValidation =
        runAttempts gen reSearch constraints maxRetries userPrompt systemPrompt
          remaining (attempt + 1)
          (userPrompt ++ "\n\nPREVIOUS ATTEMPT FAILED: " ++ e ++ "\nPlease fix and try again.")
          (events ++
            [{ state := AgentState.drafting,
               message := "Generating draft (attempt " ++ toString attempt ++ "/" ++
                 toString maxRetries ++ ")...",
               data := some (EventData.attemptInfo attempt) },
             { state := AgentState.error, message := "LLM output error: " ++ e }])
          lastOutput lastValidation) ∧
    (¬ attempt < maxRetries →
      runAttempts gen reSearch constraints maxRetries userPrompt systemPrompt
          (remaining + 1) attempt currentPrompt events lastOutput lastValidation =
        { output := none,
          validation := { is_valid := false, violations := [] },
          events := events ++
            [{ state := AgentState.drafting,
               message := "Generating draft (attempt " ++ toString attempt ++ "/" ++
                 toString maxRetries ++ ")...",
               data := some (EventData.attemptInfo attempt) },
             { state := AgentState.error, message := "LLM output error: " ++ e }],
          total_attempts := attempt,
          success := false,
          error_message := some e }) := by
  constructor <;> intro hlt <;> simp [runAttempts, hgen, hlt, List.append_assoc]

/-- Witness for the gateway-error claim: a gateway that always fails on
a two-attempt budget, checked on the non-final first attempt. -/
theorem gateway_error_witness :
    runAttempts (fun _ _ _ => Except.error "invalid JSON") (fun _ _ => false)
        flatProfile 2 "Draft" "sys" (1 + 1) 1 "Draft" [] none none =
      runAttempts (fun _ _ _ => Except.error "invalid JSON") (fun _ _ => false)
        flatProfile 2 "Draft" "sys" 1 (1 + 1)
        ("Draft" ++ "\n\nPREVIOUS ATTEMPT FAILED: " ++ "invalid JSON" ++
          "\nPlease fix and try again.")
        ([] ++
          [{ state := AgentState.drafting,
             message := "Generating draft (attempt " ++ toString 1 ++ "/" ++
               toString 2 ++ ")...",
             data := some (EventData.attemptInfo 1) },
           { state := AgentState.error, message := "LLM output error: " ++ "invalid JSON" }])
        none none :=
  (gateway_error_retry_or_final_failure (fun _ _ _ => Except.error "invalid JSON")
    (fun _ _ => false) flatProfile 2 "Draft" "sys" 1 1 "Draft" [] none none
    "invalid JSON" rfl).1 (by decide)

/-- Loop invariant behind the success claim: any result of the
draft/validate loop with `success = true` was returned from the
valid-draft branch, so it carries the drafted output, a valid
validation result, and matching attempt counters. -/
theorem runAttempts_success_inv
    (gen : Gen) (reSearch : String → String → Bool)
    (constraints : ContractConstraints) (maxRetries : Nat)
    (userPrompt systemPrompt : String) :
    ∀ (remaining attempt : Nat) (currentPrompt : String) (events : List AgentEvent)
      (lastOutput : Option AgentOutput) (lastValidation : Option ValidationResult),
      (runAttempts gen reSearch constraints maxRetries userPrompt systemPrompt
          remaining attempt currentPrompt events lastOutput lastValidation).success = true →
      (runAttempts gen reSearch constraints maxRetries userPrompt systemPrompt
          remaining attempt currentPrompt events lastOutput lastValidation).output.isSome = true ∧
      (runAttempts gen reSearch constraints maxRetries userPrompt systemPrompt
          remaining attempt currentPrompt events lastOutput lastValidation).validation.is_valid = true ∧
      (runAttempts gen reSearch constraints maxRetries userPrompt systemPrompt
          remaining attempt currentPrompt events lastOutput
          lastValidation).validation.attempt_number =
        (runAttempts gen reSearch constraints maxRetries userPrompt systemPrompt
          remaining attempt currentPrompt events lastOutput lastValidation).total_attempts := by
  intro remaining
  induction remaining with
  | zero =>
    intro attempt currentPrompt events lastOutput lastValidation h
    simp [runAttempts] at h
  | succ r ih =>
    intro attempt currentPrompt events lastOutput lastValidation h
    rcases hg : gen attempt systemPrompt currentPrompt with e | out
    · simp only [runAttempts, hg] at h ⊢
      by_cases hlt : attempt < maxRetries
      · simp only [if_pos hlt] at h ⊢
        exact ih _ _ _ _ _ h
      · simp [if_neg hlt] at h
    · simp only [runAttempts, hg] at h ⊢
      by_cases hv : (validate_output reSearch out constraints).is_valid = true
      · simp_all
      · simp only [eq_false_of_ne_true hv, Bool.false_eq_true, if_false] at h ⊢
        by_cases hlt : attempt < maxRetries
        · simp only [if_pos hlt] at h ⊢
          exact ih _ _ _ _ _ h
        · simp only [if_neg hlt] at h ⊢
          exact ih _ _ _ _ _ h

/-- C9: whenever `run_agent_sync` reports `success = true`, the result
carries an output (`output` is not `None`), its validation result is
valid, and the validation result's `attempt_number` equals the result's
`total_attempts`. -/
theorem run_agent_sync_success_invariants
    (gen : Gen) (reSearch : String → String → Bool)
    (chunksE : Except String (List DocumentChunk)) (maxRetries : Nat)
    (userPrompt : String) (constraints : ContractConstraints)
    (h : (run_agent_sync gen reSearch chunksE maxRetries userPrompt constraints).success = true) :
    (run_agent_sync gen reSearch chunksE maxRetries userPrompt
        constraints).output.isSome = true ∧
    (run_agent_sync gen reSearch chunksE maxRetries userPrompt
        constraints).validation.is_valid = true ∧
    (run_agent_sync gen reSearch chunksE maxRetries userPrompt
        constraints).validation.attempt_number =
      (run_agent_sync gen reSearch chunksE maxRetries userPrompt
        constraints).total_attempts := by
  rcases chunksE with e | chunks
  · simp [run_agent_sync] at h
  · simp only [run_agent_sync] at h ⊢
    exact runAttempts_success_inv gen reSearch constraints maxRetries userPrompt _ _ _ _ _ _ _ h

/-- Witness for the success-invariant claim: a conforming gateway
output against the permissive profile succeeds on the first attempt. -/
theorem success_invariant_witness :
    (run_agent_sync (fun _ _ _ => Except.ok conformingOutput) (fun _ _ => false)
        (Except.ok []) 3 "Draft" flatProfile).success = true ∧
    ((run_agent_sync (fun _ _ _ => Except.ok conformingOutput) (fun _ _ => false)
        (Except.ok []) 3 "Draft" flatProfile).output.isSome = true ∧
    (run_agent_sync (fun _ _ _ => Except.ok conformingOutput) (fun _ _ => false)
        (Except.ok []) 3 "Draft" flatProfile).validation.is_valid = true ∧
    (run_agent_sync (fun _ _ _ => Except.ok conformingOutput) (fun _ _ => false)
        (Except.ok []) 3 "Draft" flatProfile).validation.attempt_number =
      (run_agent_sync (fun _ _ _ => Except.ok conformingOutput) (fun _ _ => false)
        (Except.ok []) 3 "Draft" flatProfile).total_attempts) :=
  ⟨by decide,
   run_agent_sync_success_invariants (fun _ _ _ => Except.ok conformingOutput)
     (fun _ _ => false) (Except.ok []) 3 "Draft" flatProfile (by decide)⟩

/-- Loop invariant behind the retry-exhaustion claim: if the gateway
yields a schema-valid but invalid output on every call, the loop runs
through its whole budget and the exhaustion return carries the
validation result of the last attempt, stamped with the final attempt
number. -/
theorem runAttempts_all_invalid
    (gen : Gen) (reSearch : String → String → Bool)
    (constraints : ContractConstraints) (maxRetries : Nat)
    (userPrompt systemPrompt : String)
    (hgen : ∀ k p, ∃ out, gen k systemPrompt p = Except.ok out ∧
      (validate_output reSearch out constraints).is_valid = false) :
    ∀ (remaining attempt : Nat) (currentPrompt : String) (events : List AgentEvent)
      (lastOutput : Option AgentOutput) (lastValidation : Option ValidationResult),
      1 ≤ remaining → attempt + remaining = maxRetries + 1 →
      (runAttempts gen reSearch constraints maxRetries userPrompt systemPrompt
          remaining attempt currentPrompt events lastOutput lastValidation).success = false ∧
      (runAttempts gen reSearch constraints maxRetries userPrompt systemPrompt
          remaining attempt currentPrompt events lastOutput
          lastValidation).total_attempts = maxRetries ∧
      ∃ p out, gen maxRetries systemPrompt p = Except.ok out ∧
        (validate_output reSearch out constraints).is_valid = false ∧
        (runAttempts gen reSearch constraints maxRetries userPrompt systemPrompt
            remaining attempt currentPrompt events lastOutput lastValidation).validation =
          { validate_output reSearch out constraints with attempt_number := maxRetries } := by
  intro remaining
  induction remaining with
  | zero =>
    intro attempt currentPrompt events lastOutput lastValidation h1 _
    exact absurd h1 (by omega)
  | succ r ih =>
    intro attempt currentPrompt events lastOutput lastValidation _ hsum
    obtain ⟨out, hok, hinv⟩ := hgen attempt currentPrompt
    rcases Nat.eq_zero_or_pos r with hr | hr
    · subst hr
      have hattempt : attempt = maxRetries := by omega
      subst hattempt
      simp only [runAttempts, hok, hinv, Bool.false_eq_true, if_false,
        lt_irrefl, Option.getD_some]
      exact ⟨trivial, trivial, currentPrompt, out, hok, hinv, by rw [hinv]⟩
    · have hlt : attempt < maxRetries := by omega
      simp only [runAttempts, hok, hinv, Bool.false_eq_true, if_false, if_pos hlt]
      exact ih (attempt + 1) _ _ _ _ (by omega) (by omega)

/-- C2: against a gateway that on every call returns a schema-valid
output failing validation, `run_agent_sync` returns `success = false`
with `total_attempts` equal to the configured retry budget, and its
validation result is the (necessarily non-empty) violation list of the
budget's last attempt. -/
theorem retry_exhaustion_returns_last_attempt_violations
    (gen : Gen) (reSearch : String → String → Bool)
    (chunks : List DocumentChunk) (maxRetries : Nat)
    (userPrompt : String) (constraints : ContractConstraints)
    (hmax : 1 ≤ maxRetries)
    (hgen : ∀ k p, ∃ out,
      gen k (_build_system_prompt constraints (_get_relevant_context constraints chunks)) p =
        Except.ok out ∧
      (validate_output reSearch out constraints).is_valid = false) :
    (run_agent_sync gen reSearch (Except.ok chunks) maxRetries userPrompt
        constraints).success = false ∧
    (run_agent_sync gen reSearch (Except.ok chunks) maxRetries userPrompt
        constraints).total_attempts = maxRetries ∧
    (run_agent_sync gen reSearch (Except.ok chunks) maxRetries userPrompt
        constraints).validation.violations ≠ [] ∧
    ∃ p out,
      gen maxRetries (_build_system_prompt constraints (_get_relevant_context constraints chunks)) p =
        Except.ok out ∧
      (validate_output reSearch out constraints).is_valid = false ∧
      (run_agent_sync gen reSearch (Except.ok chunks) maxRetries userPrompt
          constraints).validation.violations =
        (validate_output reSearch out constraints).violations := by
  have hmain := runAttempts_all_invalid gen reSearch constraints maxRetries userPrompt
    (_build_system_prompt constraints (_get_relevant_context constraints chunks)) hgen
    maxRetries 1 userPrompt
    ([{ state := AgentState.initializing, message := "Starting legal analysis agent..." },
      { state := AgentState.retrieving, message := "Retrieving relevant source documents..." }] ++
      [{ state := AgentState.retrieving,
         message := "Retrieved context for " ++ constraints.contract_type.value,
         data := some (EventData.contextLength
           (_get_relevant_context constraints chunks).length) }])
    none none hmax (by omega)
  obtain ⟨hsucc, htotal, p, out, hokLast, hinvLast, hval⟩ := hmain
  have hrun : run_agent_sync gen reSearch (Except.ok chunks) maxRetries userPrompt constraints =
      runAttempts gen reSearch constraints maxRetries userPrompt
        (_build_system_prompt constraints (_get_relevant_context constraints chunks))
        maxRetries 1 userPrompt
        ([{ state := AgentState.initializing, message := "Starting legal analysis agent..." },
          { state := AgentState.retrieving, message := "Retrieving relevant source documents..." }] ++
          [{ state := AgentState.retrieving,
             message := "Retrieved context for " ++ constraints.contract_type.value,
             data := some (EventData.contextLength
               (_get_relevant_context constraints chunks).length) }])
        none none := rfl
  rw [hrun]
  refine ⟨hsucc, htotal, ?_, p, out, hokLast, hinvLast, ?_⟩
  · rw [hval]
    intro hnil
    have hvalid : (validate_output reSearch out constraints).is_valid = true :=
      (validate_output_is_valid_iff_aux reSearch out constraints).mpr
        (by simpa using hnil)
    rw [hvalid] at hinvLast
    exact absurd hinvLast (by decide)
  · rw [hval]

/-- Witness for the retry-exhaustion claim: the spec's concrete
scenario — a budget of three and a gateway whose schema-valid output
never satisfies the jurisdiction check. -/
theorem retry_exhaustion_witness :
    (run_agent_sync (fun _ _ _ => Except.ok mismatchedOutput) (fun _ _ => false)
        (Except.ok []) 3 "Draft" flatProfile).success = false ∧
    (run_agent_sync (fun _ _ _ => Except.ok mismatchedOutput) (fun _ _ => false)
        (Except.ok []) 3 "Draft" flatProfile).total_attempts = 3 ∧
    (run_agent_sync (fun _ _ _ => Except.ok mismatchedOutput) (fun _ _ => false)
        (Except.ok []) 3 "Draft" flatProfile).validation.violations ≠ [] ∧
    ∃ (p : String) (out : AgentOutput),
      (Except.ok mismatchedOutput : Except String AgentOutput) = Except.ok out ∧
      (validate_output (fun _ _ => false) out flatProfile).is_valid = false ∧
      (run_agent_sync (fun _ _ _ => Except.ok mismatchedOutput) (fun _ _ => false)
          (Except.ok []) 3 "Draft" flatProfile).validation.violations =
        (validate_output (fun _ _ => false) out flatProfile).violations := by
  have := retry_exhaustion_returns_last_attempt_violations
    (fun _ _ _ => Except.ok mismatchedOutput) (fun _ _ => false) [] 3 "Draft" flatProfile
    (by omega) (fun _ _ => ⟨mismatchedOutput, rfl, by decide⟩)
  exact this

/-- Modelled from the spec of the amended claim: the nearest heading of
any level (1–6) that starts before the given position, defaulting to
`"Introduction"` when no heading precedes it. -/
def nearestHeadingBefore (content : String) (position : Nat) : String :=
  (((headingMatches content).filter (fun h => decide (h.1 < position))).map
    (fun h => pyStrip ⟨h.2.2⟩)).getLastD "Introduction"

/-- The break-terminated loop of `_get_current_heading` keeps exactly
the prefix of headings starting before the position. -/
theorem currentHeadingLoop_eq_takeWhile :
    ∀ (hs : List (Nat × Nat × List Char)) (position : Nat) (cur : String),
      currentHeadingLoop position hs cur =
        ((hs.takeWhile (fun h => decide (h.1 < position))).map
          (fun h => pyStrip ⟨h.2.2⟩)).getLastD cur := by
  intro hs
  induction hs with
  | nil => intro position cur; rfl
  | cons h t ih =>
    intro position cur
    by_cases hlt : h.1 < position
    · simp only [currentHeadingLoop, if_pos hlt, List.takeWhile_cons, decide_eq_true hlt,
        if_true, List.map_cons]
      rw [ih, List.getLastD_cons]
    · simp [currentHeadingLoop, List.takeWhile_cons, hlt]

/-- On a start-sorted heading list, the break-terminated prefix equals
the filter of all headings before the position. -/
theorem takeWhile_eq_filter_of_sorted :
    ∀ (l : List (Nat × Nat × List Char)) (position : Nat),
      l.Pairwise (fun a b => a.1 < b.1) →
      l.takeWhile (fun h => decide (h.1 < position)) =
        l.filter (fun h => decide (h.1 < position)) := by
  intro l
  induction l with
  | nil => intro position _; rfl
  | cons h t ih =>
    intro position hp
    rw [List.pairwise_cons] at hp
    obtain ⟨hall, ht⟩ := hp
    by_cases hlt : h.1 < position
    · simp only [List.takeWhile_cons, List.filter_cons, decide_eq_true hlt, if_true]
      rw [ih position ht]
    · simp only [List.takeWhile_cons, List.filter_cons, decide_eq_false hlt,
        Bool.false_eq_true, if_false]
      symm
      rw [List.filter_eq_nil_iff]
      intro b hb
      have := hall b hb
      simp only [decide_eq_true_eq]
      omega

/-- Line start positions are bounded below by the running position. -/
theorem splitLinesPosAux_lb :
    ∀ (fuel : Nat) (cs : List Char) (pos : Nat),
      ∀ e ∈ splitLinesPosAux fuel cs pos, pos ≤ e.1 := by
  intro fuel
  induction fuel with
  | zero =>
    intro cs pos e he
    simp only [splitLinesPosAux, List.mem_singleton] at he
    subst he
    exact Nat.le_refl pos
  | succ f ih =>
    intro cs pos e he
    simp only [splitLinesPosAux] at he
    split at he
    · simp only [List.mem_singleton] at he
      subst he
      exact Nat.le_refl pos
    · rcases List.mem_cons.mp he with he | he
      · subst he
        exact Nat.le_refl pos
      · have := ih _ _ _ he
        omega

/-- Line start positions are strictly increasing. -/
theorem splitLinesPosAux_pairwise :
    ∀ (fuel : Nat) (cs : List Char) (pos : Nat),
      (splitLinesPosAux fuel cs pos).Pairwise (fun a b => a.1 < b.1) := by
  intro fuel
  induction fuel with
  | zero => intro cs pos; simp [splitLinesPosAux]
  | succ f ih =>
    intro cs pos
    simp only [splitLinesPosAux]
    split
    · simp
    · rw [List.pairwise_cons]
      refine ⟨fun b hb => ?_, ih _ _⟩
      have := splitLinesPosAux_lb f _ _ b hb
      omega

/-- Heading matches inherit the strictly increasing start positions of
the lines they come from. -/
theorem headingMatches_pairwise (content : String) :
    (headingMatches content).Pairwise (fun a b => a.1 < b.1) := by
  unfold headingMatches splitLinesPos
  refine List.Pairwise.filterMap _ ?_ (splitLinesPosAux_pairwise _ _ _)
  intro a a' r b hb b' hb'
  rcases hA : headingLine a.2 with _ | ⟨k, rest⟩ <;> rw [hA] at hb <;>
    rcases hA' : headingLine a'.2 with _ | ⟨k', rest'⟩ <;> rw [hA'] at hb' <;>
      simp only [Option.mem_def, Option.some.injEq, reduceCtorEq] at hb hb'
  subst hb; subst hb'
  exact r

/-- `_get_current_heading` computes the nearest preceding heading of
any level, with the `"Introduction"` default. -/
theorem get_current_heading_eq_nearest (content : String) (position : Nat) :
    _get_current_heading content position = nearestHeadingBefore content position := by
  unfold _get_current_heading nearestHeadingBefore
  rw [currentHeadingLoop_eq_takeWhile,
    takeWhile_eq_filter_of_sorted _ _ (headingMatches_pairwise content)]

/-- Membership after a dict assignment: the entry was already present
or is the assigned pair. -/
theorem dictUpsert_mem {l : List (String × Citation)} {k : String} {v : Citation}
    {x : String × Citation} (hx : x ∈ dictUpsert l k v) : x ∈ l ∨ x = (k, v) := by
  unfold dictUpsert at hx
  by_cases h : l.any (fun p => p.1 = k)
  · rw [if_pos h] at hx
    rcases List.mem_map.mp hx with ⟨p, hp, hpx⟩
    by_cases hk : p.1 = k
    · rw [if_pos hk] at hpx
      right; exact hpx.symm
    · rw [if_neg hk] at hpx
      left; rw [← hpx]; exact hp
  · rw [if_neg h] at hx
    rcases List.mem_append.mp hx with hx | hx
    · left; exact hx
    · right; simpa using hx

/-- Every entry produced by the citation loop comes from the incoming
dict or records, as its section, the current heading at its anchor's
start position. -/
theorem parseCitationsLoop_mem (content name : String) :
    ∀ (ms : List (Nat × Nat × String)) (acc : List (String × Citation))
      (x : String × Citation),
      x ∈ parseCitationsLoop content name ms acc →
      x ∈ acc ∨ ∃ s e g, (s, e, g) ∈ ms ∧ x.1 = pyStrip g ∧
        x.2.section_heading = _get_current_heading content s := by
  intro ms
  induction ms with
  | nil =>
    intro acc x hx
    left
    simpa [parseCitationsLoop] using hx
  | cons m rest ih =>
    intro acc x hx
    obtain ⟨mstart, mend, group⟩ := m
    simp only [parseCitationsLoop] at hx
    rcases ih _ x hx with hacc | ⟨s, e, g, hm, h1, h2⟩
    · split at hacc
      · rcases dictUpsert_mem hacc with hacc | hx2
        · left; exact hacc
        · right
          refine ⟨mstart, mend, group, List.mem_cons_self _ _, ?_, ?_⟩
          · rw [hx2]
          · rw [hx2]
      · left; exact hacc
    · right
      exact ⟨s, e, g, List.mem_cons_of_mem _ hm, h1, h2⟩

/-- C6 (amended): every citation recorded by `_parse_citations` takes
as its section heading the nearest heading of any level (1–6) preceding
its anchor, defaulting to `"Introduction"` when no heading precedes
it. -/
theorem citation_section_is_nearest_preceding_heading
    (content name sid : String) (c : Citation)
    (h : (sid, c) ∈ _parse_citations content name) :
    ∃ s e g, (s, e, g) ∈ scanAnchors content.data ∧ sid = pyStrip g ∧
      c.section_heading = nearestHeadingBefore content s := by
  rcases parseCitationsLoop_mem content name (scanAnchors content.data) [] (sid, c) h with
    habs | ⟨s, e, g, hm, h1, h2⟩
  · simp at habs
  · exact ⟨s, e, g, hm, h1, by rw [← get_current_heading_eq_nearest]; exact h2⟩

/-- Witness for the amended section-heading claim at a concrete
document. -/
theorem citation_section_witness :
    (("A", ({ source_id := "A", text := "Text.", document_name := "doc",
              section_heading := "Sub" } : Citation)) ∈
        _parse_citations "## S\n### Sub\n[SourceID: A]\nText." "doc") ∧
    ∃ s e g, (s, e, g) ∈ scanAnchors ("## S\n### Sub\n[SourceID: A]\nText." : String).data ∧
      "A" = pyStrip g ∧
      ({ source_id := "A", text := "Text.", document_name := "doc",
         section_heading := "Sub" } : Citation).section_heading =
        nearestHeadingBefore "## S\n### Sub\n[SourceID: A]\nText." s :=
  ⟨by decide,
   citation_section_is_nearest_preceding_heading "## S\n### Sub\n[SourceID: A]\nText."
     "doc" "A" _ (by decide)⟩

/-- C6 (counterexample): in a document whose only second-level heading
is `S`, the citation whose anchor is preceded most closely by the
third-level heading `Sub` records section `"Sub"` — so the recorded
section is neither the nearest preceding second-level heading (`"S"`)
nor the `"Introduction"` default, refuting the claim as stated. -/
theorem citation_section_uses_any_level_heading :
    _parse_citations "## S\n### Sub\n[SourceID: A]\nText." "doc" =
      [("A", { source_id := "A", text := "Text.", document_name := "doc",
               section_heading := "Sub" })] ∧
    _extract_sections "## S\n### Sub\n[SourceID: A]\nText." = ["S"] :=
  ⟨by decide, by decide⟩
